import Mathlib

/-!
Shallow embedding of the `facturacion` Django application
(easyinvoice-django): data model, derived operations and the view-level
state transitions that the verified properties talk about.

Conventions of the embedding:
* Django model instances become Lean structures; the database becomes
  explicit lists of records.
* `DecimalField` money values become `ℚ` (Python `Decimal` arithmetic on
  the values appearing here is exact).
* `DateField` values become a `Fecha` record compared lexicographically by
  (year, month, day), exactly as Python `datetime.date` compares.
* Fallible Python code becomes `Except`/`Option`.
-/

namespace EasyInvoice

/-- Left-pad the decimal representation of `n` with zeros to at least
`width` characters: Python `f"{n:0Nd}"` for a non-negative argument. -/
def zfill (width : Nat) (n : Nat) : String :=
  let s := toString n
  String.mk (List.replicate (width - s.length) '0') ++ s

/-- Value of a run of decimal digits (helper for the model of `int`). -/
def digitsToNat (cs : List Char) : Nat :=
  cs.foldl (fun acc c => acc * 10 + (c.toNat - '0'.toNat)) 0

/-- Whitespace as Python `int` strips it. -/
def esEspacio (c : Char) : Bool :=
  c.isWhitespace

/-- Python `s.strip()` on the characters of a string. -/
def pyStrip (s : String) : String :=
  String.mk (((s.data.dropWhile esEspacio).reverse.dropWhile esEspacio).reverse)

/-- Model of Python `int(s)` applied to a hyphen-free segment (the code
only ever parses segments produced by `split('-')`, so no minus sign can
occur): strip surrounding whitespace, allow one leading `+`, then require
a non-empty run of decimal digits. -/
def pySegInt (s : String) : Option Nat :=
  let core :=
    match (pyStrip s).data with
    | '+' :: rest => rest
    | t => t
  if core.length > 0 && core.all (fun c => c.isDigit) then
    some (digitsToNat core)
  else
    none

/-- Python `s.split('-')[-1]`: the text after the last hyphen. -/
def lastSegment (s : String) : String :=
  String.mk ((s.data.reverse.takeWhile (fun c => c != '-')).reverse)

/-- Character-list prefix test (Python `startswith`). -/
def esPrefijo : List Char → List Char → Bool
  | [], _ => true
  | _ :: _, [] => false
  | c :: cs, d :: ds => c == d && esPrefijo cs ds

/-- Python `s.startswith(p)`. -/
def pyStartsWith (s p : String) : Bool :=
  esPrefijo p.data s.data

/-- Lexicographic character-list comparison (the binary collation `MAX`
over a text column applies). -/
def ltChars : List Char → List Char → Bool
  | [], [] => false
  | [], _ :: _ => true
  | _ :: _, [] => false
  | c :: cs, d :: ds => c < d || (c == d && ltChars cs ds)

/-- Lexicographic string comparison. -/
def pyLtStr (a b : String) : Bool :=
  ltChars a.data b.data

/-- Model of `Max` over a character column: lexicographic maximum of the list,
`none` when the list is empty. -/
def maxNumero (l : List String) : Option String :=
  l.foldl
    (fun acc s =>
      match acc with
      | none => some s
      | some m => some (if pyLtStr m s then s else m))
    none

/-- A calendar date, compared the way Python `datetime.date` compares. -/
structure Fecha where
  anio : Nat
  mes : Nat
  dia : Nat
deriving DecidableEq, Repr

/-- Strict order on dates: lexicographic on (year, month, day). -/
def Fecha.lt (a b : Fecha) : Bool :=
  a.anio < b.anio ||
    (a.anio = b.anio &&
      (a.mes < b.mes || (a.mes = b.mes && a.dia < b.dia)))

/-- Non-strict order on dates. -/
def Fecha.le (a b : Fecha) : Bool :=
  !(Fecha.lt b a)

/-- Python `strftime('%d/%m/%Y')`. -/
def Fecha.strftime_dmY (f : Fecha) : String :=
  zfill 2 f.dia ++ "/" ++ zfill 2 f.mes ++ "/" ++ zfill 4 f.anio

/-- Business constant `settings.IVA_PERCENTAGE = 10`. -/
def IVA_PERCENTAGE : ℚ := 10

/-- Business constant `settings.NUMERO_FACTURA_INICIO = 1000`. -/
def NUMERO_FACTURA_INICIO : Nat := 1000

/-- Model of `facturacion.models.Cliente` (the fields the verified operations
touch). -/
structure Cliente where
  id : Nat
  nombre : String
  ruc_ci : String
  direccion : String
  telefono : String
  email : Option String
  activo : Bool
deriving DecidableEq, Repr

/-- Model of `facturacion.models.TimbradoConfig`.  `id = none` models an unsaved
instance (`self.pk is None`). -/
structure TimbradoConfig where
  id : Option Nat
  establecimiento : String
  punto_expedicion : String
  numero_timbrado : Option String
  fecha_inicio : Fecha
  fecha_vencimiento : Fecha
  activo : Bool
  creado_por : Option Nat
deriving DecidableEq, Repr

/-- Model of `facturacion.models.Factura`.  The owning customer is embedded, the
way the ORM exposes it through `factura.cliente`. -/
structure Factura where
  id : Nat
  numero_factura : String
  cliente : Cliente
  fecha_emision : Fecha
  subtotal : ℚ
  iva : ℚ
  total : ℚ
  estado : String
  observaciones : Option String
  timbrado : Option String
  timbrado_fecha : Option Fecha
  timbrado_vencimiento : Option Fecha
  activo : Bool
deriving DecidableEq, Repr

/-- Model of `facturacion.models.DetalleFactura`. -/
structure DetalleFactura where
  id : Nat
  factura_id : Nat
  producto : String
  cantidad : Nat
  precio_unitario : ℚ
  subtotal : ℚ
deriving DecidableEq, Repr

/-- Model of `Factura.puede_editarse`. -/
def Factura.puede_editarse (f : Factura) : Bool :=
  f.estado == "PENDIENTE"

/-- Model of `Factura.puede_anularse`. -/
def Factura.puede_anularse (f : Factura) : Bool :=
  f.estado != "ANULADA"

/-- Model of `Factura.marcar_pagada`. -/
def Factura.marcar_pagada (f : Factura) : Factura :=
  { f with estado := "PAGADA" }

/-- Model of `Factura.anular`. -/
def Factura.anular (f : Factura) : Factura :=
  { f with estado := "ANULADA" }

/-- Model of `Factura.tiene_timbrado`: Python truthiness of the optional text
field (`None` and the empty string are both falsy). -/
def Factura.tiene_timbrado (f : Factura) : Bool :=
  match f.timbrado with
  | none => false
  | some s => s.length > 0

/-- Model of `Factura.timbrado_vigente`.  The source computes `hoy =
timezone.now().date()` and never uses it; the parameter is kept to mirror
that line and to state independence from the current date. -/
def Factura.timbrado_vigente (hoy : Fecha) (f : Factura) : Bool :=
  if !(f.tiene_timbrado) then
    false
  else
    let _ := hoy
    if (match f.timbrado_fecha with
        | some d => Fecha.lt f.fecha_emision d
        | none => false) then
      false
    else if (match f.timbrado_vencimiento with
        | some d => Fecha.lt d f.fecha_emision
        | none => false) then
      false
    else
      true

/-- Model of `Factura.get_estado_display` (the display labels of
`ESTADO_CHOICES`; an unknown value displays as itself, as Django does). -/
def get_estado_display (estado : String) : String :=
  if estado == "PENDIENTE" then "Pendiente"
  else if estado == "PAGADA" then "Pagada"
  else if estado == "ANULADA" then "Anulada"
  else estado

/-- Model of `TimbradoConfig.get_activo`: first configuration with the active
flag (the list order stands for the model ordering). -/
def get_activo (configs : List TimbradoConfig) : Option TimbradoConfig :=
  configs.find? (fun x => x.activo)

/-- Model of `Factura.generar_numero_factura`, as a function of the timbrado
configurations and the stored invoices. -/
def generar_numero_factura (configs : List TimbradoConfig)
    (facturas : List Factura) : String :=
  match get_activo configs with
  | none =>
    let ultima_factura := maxNumero (facturas.map (fun f => f.numero_factura))
    let nuevo_numero :=
      match ultima_factura with
      | some u =>
        match pySegInt (lastSegment u) with
        | some n => n + 1
        | none => NUMERO_FACTURA_INICIO
      | none => NUMERO_FACTURA_INICIO
    "FAC-" ++ zfill 6 nuevo_numero
  | some config =>
    let prefijo := config.establecimiento ++ "-" ++ config.punto_expedicion ++ "-"
    let ultima_con_prefijo :=
      maxNumero ((facturas.map (fun f => f.numero_factura)).filter
        (fun s => pyStartsWith s prefijo))
    let nuevo_contador :=
      match ultima_con_prefijo with
      | some u =>
        match pySegInt (lastSegment u) with
        | some n => n + 1
        | none => 1
      | none => 1
    prefijo ++ zfill 8 nuevo_contador

/-- The successor counter exactly as the specification phrases it for
the timbrado numbering scheme: trailing counter of the maximum invoice
number sharing the `EEE-PPP-` prefix, plus one; `1` when none exists or
parsing fails. -/
def specContadorTimbrado (numeros : List String) (e p : String) : Nat :=
  let prefijo := e ++ "-" ++ p ++ "-"
  match maxNumero (numeros.filter (fun s => pyStartsWith s prefijo)) with
  | none => 1
  | some u =>
    match pySegInt (lastSegment u) with
    | some n => n + 1
    | none => 1

/-- An invoice number "formatted as `FAC-XXXXXX`" (the shape named by the
specification's legacy-numbering sentence). -/
def esFormatoFAC (s : String) : Bool :=
  pyStartsWith s "FAC-" && (s.data.drop 4).length == 6 &&
    (s.data.drop 4).all (fun c => c.isDigit)

/-- Legacy number as the specification phrases it: maximum over the
invoices formatted as `FAC-XXXXXX` only. -/
def specNumeroLegacy (numeros : List String) : String :=
  match maxNumero (numeros.filter esFormatoFAC) with
  | none => "FAC-" ++ zfill 6 NUMERO_FACTURA_INICIO
  | some u =>
    match pySegInt (lastSegment u) with
    | some n => "FAC-" ++ zfill 6 (n + 1)
    | none => "FAC-" ++ zfill 6 NUMERO_FACTURA_INICIO

/-- Legacy number as the code computes it: maximum over all stored
invoice numbers, whatever their format. -/
def specNumeroLegacyCorregido (numeros : List String) : String :=
  match maxNumero numeros with
  | none => "FAC-" ++ zfill 6 NUMERO_FACTURA_INICIO
  | some u =>
    match pySegInt (lastSegment u) with
    | some n => "FAC-" ++ zfill 6 (n + 1)
    | none => "FAC-" ++ zfill 6 NUMERO_FACTURA_INICIO

/-- The line items related to an invoice (`self.detalles.all()`). -/
def detallesDe (detalles : List DetalleFactura) (f : Factura) :
    List DetalleFactura :=
  detalles.filter (fun d => d.factura_id == f.id)

/-- Model of `Factura.calcular_totales`: recompute subtotal, IVA and total from
the related line items and persist exactly those three columns
(`update_fields=['subtotal', 'iva', 'total']`). -/
def Factura.calcular_totales (f : Factura) (detalles : List DetalleFactura) :
    Factura :=
  let sub := ((detallesDe detalles f).map (fun d => d.subtotal)).sum
  let iva := sub * (IVA_PERCENTAGE / 100)
  { f with subtotal := sub, iva := iva, total := sub + iva }

/-- Saving a line item row: replace the row with the same primary key
when it exists, append otherwise. -/
def upsertDetalle (detalles : List DetalleFactura) (d : DetalleFactura) :
    List DetalleFactura :=
  if detalles.any (fun x => x.id == d.id) then
    detalles.map (fun x => if x.id == d.id then d else x)
  else
    detalles ++ [d]

/-- Model of `DetalleFactura.save`: recompute the line subtotal as
`cantidad × precio_unitario`, store the row, then run
`factura.calcular_totales()` on the parent invoice. -/
def DetalleFactura.save (f : Factura) (detalles : List DetalleFactura)
    (d : DetalleFactura) : Factura × List DetalleFactura :=
  let d2 := { d with subtotal := (d.cantidad : ℚ) * d.precio_unitario }
  let detalles2 := upsertDetalle detalles d2
  (Factura.calcular_totales f detalles2, detalles2)

/-- Status choices offered by `FacturaForm.__init__` in each context. -/
def estado_choices (es_creacion is_staff : Bool) : List String :=
  if es_creacion then ["PENDIENTE", "PAGADA"]
  else if is_staff then ["PENDIENTE", "PAGADA", "ANULADA"]
  else ["PENDIENTE", "PAGADA"]

/-- Model of `FacturaForm.clean_estado`. -/
def clean_estado (es_creacion is_staff : Bool) (estado : String) :
    Except String String :=
  if es_creacion && estado == "ANULADA" then
    Except.ok "PENDIENTE"
  else if !es_creacion && estado == "ANULADA" && !is_staff then
    Except.error "Solo los administradores pueden anular facturas"
  else
    Except.ok estado

/-- The extra guard in `factura_crear`: `if factura.estado == 'ANULADA':
factura.estado = 'PENDIENTE'`. -/
def coerce_estado_creacion (estado : String) : String :=
  if estado == "ANULADA" then "PENDIENTE" else estado

/-- Status of a new invoice as the creation pipeline determines it:
the submitted value must be one of the creation-mode choices, is cleaned
by `clean_estado`, and the view coerces `ANULADA` once more before the
save.  `none` models a rejected form. -/
def factura_crear_estado (submitted : String) : Option String :=
  if (estado_choices true false).contains submitted then
    match clean_estado true false submitted with
    | Except.ok e => some (coerce_estado_creacion e)
    | Except.error _ => none
  else
    none

/-- Message kinds produced through the `django.contrib.messages`
framework. -/
inductive MsgKind
  | info
  | error
  | success
deriving DecidableEq, Repr

/-- Model of `factura_marcar_pagada` (the part after object lookup). -/
def factura_marcar_pagada (f : Factura) : Factura × MsgKind :=
  if f.estado == "PAGADA" then (f, MsgKind.info)
  else if f.estado == "ANULADA" then (f, MsgKind.error)
  else (f.marcar_pagada, MsgKind.success)

/-- The captcha values `factura_anular` keeps in the session. -/
structure Session where
  captcha_a : Option Int
  captcha_b : Option Int
deriving DecidableEq, Repr

/-- Outcome of a POST to `factura_anular`. -/
inductive AnularResultado
  | yaAnulada
  | sesionExpirada
  | anulada
  | captchaIncorrecto
deriving DecidableEq, Repr

/-- Model of `factura_anular`, POST branch: refuse when the invoice is already
voided; require both session operands; void inside the transaction and
clear the session only when the answer equals their sum. -/
def factura_anular_post (f : Factura) (sess : Session) (respuesta : Int) :
    Factura × Session × AnularResultado :=
  if !(f.puede_anularse) then
    (f, sess, AnularResultado.yaAnulada)
  else
    match sess.captcha_a, sess.captcha_b with
    | some a, some b =>
      if respuesta == a + b then
        (f.anular, { captcha_a := none, captcha_b := none },
          AnularResultado.anulada)
      else
        (f, sess, AnularResultado.captchaIncorrecto)
    | _, _ => (f, sess, AnularResultado.sesionExpirada)

/-- Outcome of a POST to `cliente_eliminar`. -/
inductive EliminarResultado
  | rechazado (facturas_activas : Nat)
  | desactivado
deriving DecidableEq, Repr

/-- Model of `cliente_eliminar`, POST branch: count the customer's active
invoices; refuse with that count when positive, otherwise clear the
active flag in place.  `none` models the 404 on an unknown key. -/
def cliente_eliminar (clientes : List Cliente) (facturas : List Factura)
    (pk : Nat) : Option (List Cliente × EliminarResultado) :=
  match clientes.find? (fun c => c.id == pk) with
  | none => none
  | some cliente =>
    let facturas_activas :=
      (facturas.filter (fun f => f.cliente.id == cliente.id && f.activo)).length
    if facturas_activas > 0 then
      some (clientes, EliminarResultado.rechazado facturas_activas)
    else
      some (clientes.map
        (fun x => if x.id == pk then { x with activo := false } else x),
        EliminarResultado.desactivado)

/-- Round a rational to the nearest integer, ties to even: the rounding
Python `format(x, ',.0f')` applies. -/
def roundHalfEven (q : ℚ) : Int :=
  let fl : Int := ⌊q⌋
  let frac := q - fl
  if frac < 1 / 2 then fl
  else if 1 / 2 < frac then fl + 1
  else if fl % 2 = 0 then fl else fl + 1

/-- Insert a thousands separator every three digits; the digits arrive
least-significant first. -/
def comasRev : List Char → Nat → List Char
  | [], _ => []
  | c :: cs, k =>
    if k = 3 then ',' :: c :: comasRev cs 1
    else c :: comasRev cs (k + 1)

/-- Decimal digits of `n` grouped in threes with commas. -/
def agrupaMiles (n : Nat) : String :=
  String.mk ((comasRev (toString n).data.reverse 0).reverse)

/-- The currency formatting used throughout: `f"₲ {x:,.0f}"`. -/
def formatGs (q : ℚ) : String :=
  let r := roundHalfEven q
  "₲ " ++ (if r < 0 then "-" else "") ++ agrupaMiles r.natAbs

/-- The detail section built by `generar_reporte_ventas`: the header
row, one row per invoice of `facturas[:50]`, and the overflow note
emitted when more than 50 invoices match. -/
structure ReporteDetalle where
  rows : List (List String)
  nota : Option String
deriving DecidableEq, Repr

/-- One detail-table row of the sales report. -/
def reporteFila (f : Factura) : List String :=
  [f.numero_factura,
   f.fecha_emision.strftime_dmY,
   String.mk (f.cliente.nombre.data.take 30),
   get_estado_display f.estado,
   formatGs f.total]

/-- Detail table and overflow note of `generar_reporte_ventas`. -/
def generar_reporte_ventas_detalle (facturas : List Factura) :
    ReporteDetalle :=
  { rows := ["Nº Factura", "Fecha", "Cliente", "Estado", "Total"] ::
      (facturas.take 50).map reporteFila,
    nota :=
      if facturas.length > 50 then
        some ("Mostrando las primeras 50 de " ++ toString facturas.length
          ++ " facturas")
      else
        none }

/-- The active configurations other than the instance being validated
(`existe_activo`, with the `exclude(pk=self.pk)` step when the instance
is saved). -/
def activosExcepto (configs : List TimbradoConfig) (pk : Option Nat) :
    List TimbradoConfig :=
  let existe_activo := configs.filter (fun x => x.activo)
  match pk with
  | some v => existe_activo.filter (fun x => x.id != some v)
  | none => existe_activo

/-- Model of `TimbradoConfig.clean`: reject a second active configuration, then
reject a validity window whose end is not after its start. -/
def TimbradoConfig.clean (configs : List TimbradoConfig)
    (c : TimbradoConfig) : Except String Unit :=
  if c.activo && !(activosExcepto configs c.id).isEmpty then
    Except.error
      "Ya existe una configuración de timbrado activa. Desactive la anterior primero."
  else if Fecha.le c.fecha_vencimiento c.fecha_inicio then
    Except.error
      "La fecha de vencimiento debe ser posterior a la fecha de inicio"
  else
    Except.ok ()

/-- Saving a fresh instance (`self.pk is None`): the row is appended with
a newly assigned primary key. -/
def saveNew (configs : List TimbradoConfig) (c : TimbradoConfig)
    (fid : Nat) : List TimbradoConfig :=
  configs ++ [{ c with id := some fid }]

/-- Saving an existing instance: the row with the same primary key is
overwritten. -/
def saveUpdate (configs : List TimbradoConfig) (c : TimbradoConfig) :
    List TimbradoConfig :=
  configs.map (fun x => if x.id == c.id then c else x)

/-- The transaction body of `timbrado_configurar` on a valid submission:
deactivate the active configuration found by `get_activo` (if any), then
create the payload as active, stamped with the acting user as creator. -/
def timbrado_configurar (configs : List TimbradoConfig)
    (payload : TimbradoConfig) (user : Nat) (fid : Nat) :
    List TimbradoConfig :=
  let config_activa := get_activo configs
  let configs2 :=
    match config_activa with
    | some ca =>
      configs.map (fun x => if x.id == ca.id then { x with activo := false } else x)
    | none => configs
  configs2 ++
    [{ payload with id := some fid, activo := true, creado_por := some user }]

/-- Primary keys present in a configuration table. -/
def idsOf (configs : List TimbradoConfig) : List Nat :=
  configs.filterMap (fun x => x.id)

/-- Number of configurations with the active flag. -/
def cuentaActivos (configs : List TimbradoConfig) : Nat :=
  (configs.filter (fun x => x.activo)).length

/-- Configuration tables reachable through validated saves and the
privileged replacement workflow, starting from the empty table.  Fresh
primary keys model the storage layer assigning unused keys on insert. -/
inductive TimbradoReachable : List TimbradoConfig → Prop
  | empty : TimbradoReachable []
  | createValidated (s : List TimbradoConfig) (c : TimbradoConfig) (fid : Nat)
      (hr : TimbradoReachable s) (hid : c.id = none)
      (hclean : TimbradoConfig.clean s c = Except.ok ())
      (hfresh : fid ∉ idsOf s) :
      TimbradoReachable (saveNew s c fid)
  | updateValidated (s : List TimbradoConfig) (c : TimbradoConfig) (pk : Nat)
      (hr : TimbradoReachable s) (hid : c.id = some pk)
      (hclean : TimbradoConfig.clean s c = Except.ok ()) :
      TimbradoReachable (saveUpdate s c)
  | replaceWorkflow (s : List TimbradoConfig) (payload : TimbradoConfig)
      (user fid : Nat) (hr : TimbradoReachable s) (hfresh : fid ∉ idsOf s) :
      TimbradoReachable (timbrado_configurar s payload user fid)

/-- The structural well-formedness the induction for the single-active
invariant carries along: distinct primary keys, and every stored row has
one. -/
def StoreOk (configs : List TimbradoConfig) : Prop :=
  (idsOf configs).Nodup ∧ ∀ c ∈ configs, c.id.isSome

/-! Concrete records used to instantiate the theorems below. -/

/-- A concrete customer. -/
def clienteDemo : Cliente :=
  { id := 1, nombre := "Juan Pérez", ruc_ci := "123456",
    direccion := "Asunción", telefono := "0981123456", email := none,
    activo := true }

/-- A concrete pending invoice. -/
def facturaDemo : Factura :=
  { id := 1, numero_factura := "001-001-00000005", cliente := clienteDemo,
    fecha_emision := { anio := 2025, mes := 3, dia := 7 },
    subtotal := 100, iva := 10, total := 110, estado := "PENDIENTE",
    observaciones := none, timbrado := some "12345678",
    timbrado_fecha := some { anio := 2025, mes := 1, dia := 1 },
    timbrado_vencimiento := some { anio := 2025, mes := 12, dia := 31 },
    activo := true }

/-- A concrete timbrado configuration payload (no primary key yet). -/
def configDemo : TimbradoConfig :=
  { id := none, establecimiento := "001", punto_expedicion := "002",
    numero_timbrado := some "12345678",
    fecha_inicio := { anio := 2025, mes := 1, dia := 1 },
    fecha_vencimiento := { anio := 2026, mes := 1, dia := 1 },
    activo := true, creado_por := none }

/-- C10: the timbrado date-window-validity check returns false when no
timbrado number is recorded; otherwise it is true exactly when the
invoice's own issue date lies within the recorded start/end bounds (each
checked only when present); and its value does not depend on the current
date the check runs at. -/
theorem C10_timbrado_vigente_puro (f : Factura) (h1 h2 : Fecha) :
    Factura.timbrado_vigente h1 f = Factura.timbrado_vigente h2 f ∧
    (f.tiene_timbrado = false → Factura.timbrado_vigente h1 f = false) ∧
    (f.tiene_timbrado = true →
      Factura.timbrado_vigente h1 f =
        ((match f.timbrado_fecha with
          | some d => Fecha.le d f.fecha_emision
          | none => true) &&
         (match f.timbrado_vencimiento with
          | some d => Fecha.le f.fecha_emision d
          | none => true))) := by
  refine ⟨rfl, ?_, ?_⟩
  · intro h
    simp [Factura.timbrado_vigente, h]
  · intro h
    simp only [Factura.timbrado_vigente, h, Bool.not_true, Bool.false_eq_true,
      if_false, Fecha.le]
    cases f.timbrado_fecha with
    | none =>
      cases f.timbrado_vencimiento with
      | none => simp
      | some d => cases hb : Fecha.lt d f.fecha_emision <;> simp [hb]
    | some d1 =>
      cases hb1 : Fecha.lt f.fecha_emision d1 with
      | true => simp [hb1]
      | false =>
        cases f.timbrado_vencimiento with
        | none => simp [hb1]
        | some d2 => cases hb2 : Fecha.lt d2 f.fecha_emision <;> simp [hb1, hb2]

/-- C10 witness: the check evaluated on a concrete invoice whose issue
date lies inside the recorded window. -/
theorem C10_timbrado_vigente_puro_witness :
    facturaDemo.tiene_timbrado = true ∧
    Factura.timbrado_vigente { anio := 2030, mes := 1, dia := 1 } facturaDemo = true := by
  refine ⟨by decide, ?_⟩
  have h := (C10_timbrado_vigente_puro facturaDemo
    { anio := 2030, mes := 1, dia := 1 } { anio := 1999, mes := 1, dia := 1 }).2.2
    (by decide)
  rw [h]
  decide

/-- C7: mark-as-paid is a no-op with an informational message on a PAID
invoice, is refused with an error leaving the status unchanged on a
VOIDED invoice, and otherwise transitions the invoice to PAID with a
success message. -/
theorem C7_marcar_pagada (f : Factura) :
    (f.estado = "PAGADA" → factura_marcar_pagada f = (f, MsgKind.info)) ∧
    (f.estado = "ANULADA" → factura_marcar_pagada f = (f, MsgKind.error)) ∧
    (f.estado ≠ "PAGADA" → f.estado ≠ "ANULADA" →
      factura_marcar_pagada f =
        ({ f with estado := "PAGADA" }, MsgKind.success)) := by
  refine ⟨?_, ?_, ?_⟩
  · intro h
    simp [factura_marcar_pagada, h]
  · intro h
    simp [factura_marcar_pagada, h]
  · intro h1 h2
    simp [factura_marcar_pagada, h1, h2, Factura.marcar_pagada]

/-- C7 witness: marking a concrete pending invoice as paid. -/
theorem C7_marcar_pagada_witness :
    facturaDemo.estado ≠ "PAGADA" ∧ facturaDemo.estado ≠ "ANULADA" ∧
    factura_marcar_pagada facturaDemo =
      ({ facturaDemo with estado := "PAGADA" }, MsgKind.success) :=
  ⟨by decide, by decide,
    (C7_marcar_pagada facturaDemo).2.2 (by decide) (by decide)⟩

/-- C5: in creation mode the form's status cleaning turns a submitted
VOIDED status into PENDING, the creation view coerces VOIDED to PENDING
again before saving, and every status the creation pipeline accepts is
PENDING or PAID. -/
theorem C5_estado_creacion :
    (∀ b, clean_estado true b "ANULADA" = Except.ok "PENDIENTE") ∧
    coerce_estado_creacion "ANULADA" = "PENDIENTE" ∧
    (∀ s e, factura_crear_estado s = some e →
      e = "PENDIENTE" ∨ e = "PAGADA") := by
  refine ⟨fun b => rfl, rfl, ?_⟩
  intro s e h
  by_cases hc : s = "PENDIENTE"
  · subst hc
    simp [factura_crear_estado, estado_choices, clean_estado,
      coerce_estado_creacion] at h
    exact Or.inl h.symm
  · by_cases hp : s = "PAGADA"
    · subst hp
      simp [factura_crear_estado, estado_choices, clean_estado,
        coerce_estado_creacion] at h
      exact Or.inr h.symm
    · exfalso
      simp [factura_crear_estado, estado_choices, hc, hp] at h

/-- C5 witness: the creation pipeline on a concrete submission. -/
theorem C5_estado_creacion_witness :
    factura_crear_estado "PAGADA" = some "PAGADA" ∧
    ("PAGADA" = "PENDIENTE" ∨ ("PAGADA" : String) = "PAGADA") :=
  ⟨by decide, C5_estado_creacion.2.2 "PAGADA" "PAGADA" (by decide)⟩

/-- C6: voiding is blocked once the invoice is VOIDED; with the two
captcha operands in the session, a matching answer voids the invoice and
clears the session challenge, while a mismatched answer reports the
captcha error and changes nothing. -/
theorem C6_anular (f : Factura) (sess : Session) (r a b : Int)
    (ha : sess.captcha_a = some a) (hb : sess.captcha_b = some b) :
    f.puede_anularse = (f.estado != "ANULADA") ∧
    (f.puede_anularse = false →
      factura_anular_post f sess r = (f, sess, AnularResultado.yaAnulada)) ∧
    (f.puede_anularse = true → r = a + b →
      factura_anular_post f sess r =
        ({ f with estado := "ANULADA" },
          { captcha_a := none, captcha_b := none }, AnularResultado.anulada)) ∧
    (f.puede_anularse = true → r ≠ a + b →
      factura_anular_post f sess r =
        (f, sess, AnularResultado.captchaIncorrecto)) := by
  refine ⟨rfl, ?_, ?_, ?_⟩
  · intro h
    simp [factura_anular_post, h]
  · intro h hr
    simp [factura_anular_post, h, ha, hb, hr, Factura.anular]
  · intro h hr
    simp [factura_anular_post, h, ha, hb, hr]

/-- C6 witness: voiding a concrete pending invoice with the correct
captcha answer. -/
theorem C6_anular_witness :
    facturaDemo.puede_anularse = true ∧
    factura_anular_post facturaDemo
        { captcha_a := some 3, captcha_b := some 4 } 7 =
      ({ facturaDemo with estado := "ANULADA" },
        { captcha_a := none, captcha_b := none }, AnularResultado.anulada) :=
  ⟨by decide,
    (C6_anular facturaDemo { captcha_a := some 3, captcha_b := some 4 } 7 3 4
      rfl rfl).2.2.1 (by decide) (by decide)⟩

/-- C2: with an active timbrado configuration, the generated invoice
number is the configuration's establishment and issuance-point codes
followed by the 8-digit zero-padded successor counter, where the
successor is taken from the maximum invoice number sharing the
`EEE-PPP-` prefix and starts at 1 when none exists or parsing fails. -/
theorem C2_numero_timbrado (configs : List TimbradoConfig)
    (facturas : List Factura) (cfg : TimbradoConfig)
    (hact : get_activo configs = some cfg) :
    generar_numero_factura configs facturas =
      (cfg.establecimiento ++ "-" ++ cfg.punto_expedicion ++ "-") ++
        zfill 8 (specContadorTimbrado
          (facturas.map (fun f => f.numero_factura))
          cfg.establecimiento cfg.punto_expedicion) := by
  simp only [generar_numero_factura, specContadorTimbrado, hact]
  cases hm :
      maxNumero ((facturas.map (fun f => f.numero_factura)).filter
        (fun s => pyStartsWith s
          (cfg.establecimiento ++ "-" ++ cfg.punto_expedicion ++ "-"))) <;>
    simp [hm]

/-- C2 witness: numbering under a concrete active configuration with one
invoice already carrying the prefix. -/
theorem C2_numero_timbrado_witness :
    get_activo [{ configDemo with id := some 1 }] =
      some { configDemo with id := some 1 } ∧
    generar_numero_factura [{ configDemo with id := some 1 }] [facturaDemo] =
      ("001" ++ "-" ++ "002" ++ "-") ++
        zfill 8 (specContadorTimbrado ["001-001-00000005"] "001" "002") := by
  refine ⟨by decide, ?_⟩
  exact C2_numero_timbrado [{ configDemo with id := some 1 }] [facturaDemo]
    { configDemo with id := some 1 } (by decide)

/-- C3 counterexample: with no active configuration and a single stored
invoice numbered `001-001-00000005` — so no invoice formatted
`FAC-XXXXXX` exists — the claim requires the configured initial value
1000 (`FAC-001000`), but the code takes the maximum over all invoice
numbers regardless of format and returns `FAC-000006`. -/
theorem C3_counterexample :
    generar_numero_factura [] [facturaDemo] = "FAC-000006" ∧
    ([facturaDemo].map (fun f => f.numero_factura)).filter esFormatoFAC = [] ∧
    specNumeroLegacy ([facturaDemo].map (fun f => f.numero_factura)) =
      "FAC-" ++ zfill 6 NUMERO_FACTURA_INICIO ∧
    generar_numero_factura [] [facturaDemo] ≠
      specNumeroLegacy ([facturaDemo].map (fun f => f.numero_factura)) := by
  refine ⟨by decide, by decide, by decide, by decide⟩

/-- C3 amended: with no active timbrado configuration the generated
number is `FAC-` plus a 6-digit zero-padded integer obtained from the
maximum existing invoice number over all invoices regardless of format,
parsing the text after its last hyphen and incrementing; the configured
initial value (default 1000) is used when no invoice exists at all or
that parse fails. -/
theorem C3_legacy_amended (configs : List TimbradoConfig)
    (facturas : List Factura) (h : get_activo configs = none) :
    generar_numero_factura configs facturas =
      specNumeroLegacyCorregido (facturas.map (fun f => f.numero_factura)) := by
  unfold generar_numero_factura specNumeroLegacyCorregido
  rw [h]
  cases hm : maxNumero (facturas.map (fun f => f.numero_factura)) with
  | none => simp [hm]
  | some u => cases hp : pySegInt (lastSegment u) <;> simp [hm, hp]

/-- C3 amended witness: the legacy numbering evaluated on the concrete
store of the counterexample. -/
theorem C3_legacy_amended_witness :
    get_activo [] = none ∧
    generar_numero_factura [] [facturaDemo] =
      specNumeroLegacyCorregido ([facturaDemo].map (fun f => f.numero_factura)) :=
  ⟨rfl, C3_legacy_amended [] [facturaDemo] rfl⟩

/-- C8: customer deletion is a soft-deactivation: when the customer owns
active invoices the confirmation is refused with their count and the
customer table is untouched; otherwise the record stays in the table
with only its active flag cleared, every other customer untouched. -/
theorem C8_cliente_eliminar (clientes : List Cliente)
    (facturas : List Factura) (pk : Nat) (c : Cliente)
    (hfind : clientes.find? (fun x => x.id == pk) = some c) :
    ((facturas.filter (fun f => f.cliente.id == c.id && f.activo)).length > 0 →
      cliente_eliminar clientes facturas pk =
        some (clientes, EliminarResultado.rechazado
          (facturas.filter (fun f => f.cliente.id == c.id && f.activo)).length)) ∧
    ((facturas.filter (fun f => f.cliente.id == c.id && f.activo)).length = 0 →
      ∃ clientes2,
        cliente_eliminar clientes facturas pk =
          some (clientes2, EliminarResultado.desactivado) ∧
        clientes2.length = clientes.length ∧
        { c with activo := false } ∈ clientes2 ∧
        ∀ x ∈ clientes, x.id ≠ pk → x ∈ clientes2) := by
  have hcid : (c.id == pk) = true := by
    have h2 := List.find?_some hfind
    simpa using h2
  have hcm : c ∈ clientes := List.mem_of_find?_eq_some hfind
  refine ⟨?_, ?_⟩
  · intro h
    simp only [cliente_eliminar, hfind]
    rw [if_pos h]
  · intro h
    refine ⟨clientes.map
      (fun x => if x.id == pk then { x with activo := false } else x),
      ?_, by simp, ?_, ?_⟩
    · simp only [cliente_eliminar, hfind]
      rw [if_neg (by omega)]
    · have himg :
          (fun x => if x.id == pk then { x with activo := false } else x) c =
            { c with activo := false } := by
        simp [hcid]
      exact himg ▸ List.mem_map_of_mem _ hcm
    · intro x hx hne
      have himg :
          (fun y => if y.id == pk then { y with activo := false } else y) x =
            x := by
        simp [hne]
      exact himg ▸ List.mem_map_of_mem _ hx

/-- C8 witness: deactivating a concrete customer with no active
invoices. -/
theorem C8_cliente_eliminar_witness :
    ∃ clientes2,
      cliente_eliminar [clienteDemo] [] 1 =
        some (clientes2, EliminarResultado.desactivado) ∧
      clientes2.length = [clienteDemo].length ∧
      { clienteDemo with activo := false } ∈ clientes2 ∧
      ∀ x ∈ [clienteDemo], x.id ≠ 1 → x ∈ clientes2 :=
  (C8_cliente_eliminar [clienteDemo] [] 1 clienteDemo (by decide)).2 (by decide)

/-- C9: the sales-report detail table has the header row plus exactly
the first `min(n, 50)` invoice rows (number, formatted date, customer
name truncated to 30 characters, localized status, formatted total), and
the italic overflow note is present if and only if more than 50 invoices
match, naming the total count. -/
theorem C9_reporte_detalle (facturas : List Factura) :
    (generar_reporte_ventas_detalle facturas).rows.length =
      1 + min facturas.length 50 ∧
    (generar_reporte_ventas_detalle facturas).rows.head? =
      some ["Nº Factura", "Fecha", "Cliente", "Estado", "Total"] ∧
    (generar_reporte_ventas_detalle facturas).rows.tail =
      (facturas.take 50).map reporteFila ∧
    ((generar_reporte_ventas_detalle facturas).nota.isSome ↔
      facturas.length > 50) ∧
    (facturas.length > 50 →
      (generar_reporte_ventas_detalle facturas).nota =
        some ("Mostrando las primeras 50 de " ++ toString facturas.length
          ++ " facturas")) := by
  refine ⟨?_, rfl, rfl, ?_, ?_⟩
  · simp only [generar_reporte_ventas_detalle, List.length_cons,
      List.length_map, List.length_take]
    omega
  · by_cases h : facturas.length > 50 <;>
      simp [generar_reporte_ventas_detalle, h]
  · intro h
    simp [generar_reporte_ventas_detalle, h]

/-- C9 witness: a report over 55 invoices carries the overflow note. -/
theorem C9_reporte_detalle_witness :
    (List.replicate 55 facturaDemo).length > 50 ∧
    (generar_reporte_ventas_detalle (List.replicate 55 facturaDemo)).nota =
      some "Mostrando las primeras 50 de 55 facturas" := by
  refine ⟨by decide, ?_⟩
  have h := (C9_reporte_detalle (List.replicate 55 facturaDemo)).2.2.2.2
    (by decide)
  rw [h]
  rfl

/-- C4: after a line-item save the parent invoice's subtotal is the sum
of its line items' subtotals, its IVA is subtotal × (IVA percentage /
100), its total is subtotal + IVA, every line item's subtotal is its
quantity × unit price, and only the subtotal/IVA/total fields of the
invoice change. -/
theorem C4_calcular_totales (f : Factura) (detalles : List DetalleFactura)
    (d : DetalleFactura) (hd : d.factura_id = f.id)
    (hprev : ∀ x ∈ detalles,
      x.subtotal = (x.cantidad : ℚ) * x.precio_unitario) :
    (DetalleFactura.save f detalles d).1.subtotal =
      (((detallesDe (DetalleFactura.save f detalles d).2
        (DetalleFactura.save f detalles d).1)).map
          (fun x => x.subtotal)).sum ∧
    (DetalleFactura.save f detalles d).1.iva =
      (DetalleFactura.save f detalles d).1.subtotal * (IVA_PERCENTAGE / 100) ∧
    (DetalleFactura.save f detalles d).1.total =
      (DetalleFactura.save f detalles d).1.subtotal +
        (DetalleFactura.save f detalles d).1.iva ∧
    (∀ x ∈ (DetalleFactura.save f detalles d).2,
      x.subtotal = (x.cantidad : ℚ) * x.precio_unitario) ∧
    { d with subtotal := (d.cantidad : ℚ) * d.precio_unitario } ∈
      detallesDe (DetalleFactura.save f detalles d).2
        (DetalleFactura.save f detalles d).1 ∧
    (DetalleFactura.save f detalles d).1.id = f.id ∧
    (DetalleFactura.save f detalles d).1.numero_factura = f.numero_factura ∧
    (DetalleFactura.save f detalles d).1.cliente = f.cliente ∧
    (DetalleFactura.save f detalles d).1.fecha_emision = f.fecha_emision ∧
    (DetalleFactura.save f detalles d).1.estado = f.estado ∧
    (DetalleFactura.save f detalles d).1.observaciones = f.observaciones ∧
    (DetalleFactura.save f detalles d).1.timbrado = f.timbrado ∧
    (DetalleFactura.save f detalles d).1.timbrado_fecha = f.timbrado_fecha ∧
    (DetalleFactura.save f detalles d).1.timbrado_vencimiento =
      f.timbrado_vencimiento ∧
    (DetalleFactura.save f detalles d).1.activo = f.activo := by
  have hmem2 :
      { d with subtotal := (d.cantidad : ℚ) * d.precio_unitario } ∈
        (DetalleFactura.save f detalles d).2 := by
    simp only [DetalleFactura.save, upsertDetalle]
    by_cases hany : detalles.any (fun x => x.id == d.id)
    · rw [if_pos hany]
      rcases List.any_eq_true.mp hany with ⟨y, hy, hyid⟩
      exact List.mem_map.mpr ⟨y, hy, by simp [hyid]⟩
    · rw [if_neg hany]
      simp
  refine ⟨rfl, rfl, rfl, ?_, ?_, rfl, rfl, rfl, rfl, rfl, rfl, rfl, rfl,
    rfl, rfl⟩
  · intro x hx
    simp only [DetalleFactura.save, upsertDetalle] at hx
    by_cases hany : detalles.any (fun y => y.id == d.id)
    · rw [if_pos hany] at hx
      rcases List.mem_map.mp hx with ⟨y, hy, hxy⟩
      by_cases hyid : (y.id == d.id) = true
      · rw [← hxy, if_pos hyid]
      · rw [← hxy, if_neg hyid]
        exact hprev y hy
    · rw [if_neg hany] at hx
      rcases List.mem_append.mp hx with hx1 | hx1
      · exact hprev x hx1
      · rw [List.mem_singleton.mp hx1]
  · refine List.mem_filter.mpr ⟨hmem2, ?_⟩
    have hid : (DetalleFactura.save f detalles d).1.id = f.id := rfl
    show (d.factura_id == (DetalleFactura.save f detalles d).1.id) = true
    rw [hid, hd]
    simp

/-- C4 witness: saving a concrete line item on a concrete invoice. -/
theorem C4_calcular_totales_witness :
    ({ id := 1, factura_id := 1, producto := "Servicio", cantidad := 3,
       precio_unitario := 50, subtotal := 0 } : DetalleFactura).factura_id =
      facturaDemo.id ∧
    (DetalleFactura.save facturaDemo []
      { id := 1, factura_id := 1, producto := "Servicio", cantidad := 3,
        precio_unitario := 50, subtotal := 0 }).1.subtotal =
      (((detallesDe (DetalleFactura.save facturaDemo []
        { id := 1, factura_id := 1, producto := "Servicio", cantidad := 3,
          precio_unitario := 50, subtotal := 0 }).2
        (DetalleFactura.save facturaDemo []
        { id := 1, factura_id := 1, producto := "Servicio", cantidad := 3,
          precio_unitario := 50, subtotal := 0 }).1)).map
          (fun x => x.subtotal)).sum :=
  ⟨rfl, (C4_calcular_totales facturaDemo []
    { id := 1, factura_id := 1, producto := "Servicio", cantidad := 3,
      precio_unitario := 50, subtotal := 0 } rfl
    (by intro x hx; cases hx)).1⟩

/-! Helper lemmas for the single-active-configuration invariant. -/

theorem cuentaActivos_append (l : List TimbradoConfig) (c : TimbradoConfig) :
    cuentaActivos (l ++ [c]) =
      cuentaActivos l + (if c.activo then 1 else 0) := by
  simp only [cuentaActivos, List.filter_append]
  cases hc : c.activo <;> simp [hc]

theorem clean_ok_isEmpty (s : List TimbradoConfig) (c : TimbradoConfig)
    (h : TimbradoConfig.clean s c = Except.ok ()) (ha : c.activo = true) :
    (activosExcepto s c.id).isEmpty = true := by
  by_cases he : (activosExcepto s c.id).isEmpty
  · exact he
  · exfalso
    simp only [Bool.not_eq_true] at he
    simp [TimbradoConfig.clean, ha, he] at h

theorem cuentaActivos_eq_zero_of_isEmpty {s : List TimbradoConfig}
    (h : (s.filter (fun x => x.activo)).isEmpty = true) :
    cuentaActivos s = 0 := by
  rw [List.isEmpty_iff] at h
  simp [cuentaActivos, h]

theorem activosExcepto_none (s : List TimbradoConfig) :
    activosExcepto s none = s.filter (fun x => x.activo) := rfl

theorem activosExcepto_some (s : List TimbradoConfig) (pk : Nat) :
    activosExcepto s (some pk) =
      (s.filter (fun x => x.activo)).filter (fun x => x.id != some pk) := rfl

theorem idsOf_append_some (s : List TimbradoConfig) (c : TimbradoConfig)
    (v : Nat) (hc : c.id = some v) :
    idsOf (s ++ [c]) = idsOf s ++ [v] := by
  simp [idsOf, List.filterMap_append, hc]

theorem idsOf_map_pres (g : TimbradoConfig → TimbradoConfig)
    (hg : ∀ x, (g x).id = x.id) (l : List TimbradoConfig) :
    idsOf (l.map g) = idsOf l := by
  induction l with
  | nil => rfl
  | cons x t ih =>
    simp only [List.map_cons, idsOf, List.filterMap_cons] at *
    rw [hg x]
    cases hx : x.id <;> simp [hx, ih]

theorem saveUpdate_id_pres (c x : TimbradoConfig) :
    ((if x.id == c.id then c else x).id) = x.id := by
  by_cases h : (x.id == c.id) = true
  · rw [if_pos h]
    exact (eq_of_beq h).symm
  · rw [if_neg h]

theorem deactivate_id_pres (ca x : TimbradoConfig) :
    ((if x.id == ca.id then { x with activo := false } else x).id) = x.id := by
  by_cases h : (x.id == ca.id) = true
  · rw [if_pos h]
  · rw [if_neg h]

theorem cuentaActivos_map_le (s : List TimbradoConfig)
    (g : TimbradoConfig → TimbradoConfig)
    (h : ∀ x, (g x).activo = true → x.activo = true) :
    cuentaActivos (s.map g) ≤ cuentaActivos s := by
  induction s with
  | nil => simp [cuentaActivos]
  | cons x t ih =>
    simp only [List.map_cons, cuentaActivos, List.filter_cons] at *
    by_cases hx : (g x).activo = true
    · have hx2 : x.activo = true := h x hx
      simp only [hx, hx2, if_true, List.length_cons]
      omega
    · have hx2 : (g x).activo = false := by simpa using hx
      by_cases hx3 : x.activo = true
      · simp [hx2, hx3]
        omega
      · have hx4 : x.activo = false := by simpa using hx3
        simp [hx2, hx4]
        exact ih

theorem filter_id_length_le_one (s : List TimbradoConfig) (pk : Nat)
    (hnodup : (idsOf s).Nodup) :
    (s.filter (fun x => x.id == some pk)).length ≤ 1 := by
  induction s with
  | nil => simp
  | cons x t ih =>
    cases hx : x.id with
    | none =>
      have hnd : (idsOf t).Nodup := by
        simpa [idsOf, List.filterMap_cons, hx] using hnodup
      have hxpk : (x.id == some pk) = false := by simp [hx]
      simp only [List.filter_cons, hxpk, Bool.false_eq_true, if_false]
      exact ih hnd
    | some a =>
      have h2 : a ∉ idsOf t ∧ (idsOf t).Nodup := by
        have h3 : (a :: idsOf t).Nodup := by
          simpa [idsOf, List.filterMap_cons, hx] using hnodup
        exact ⟨(List.nodup_cons.mp h3).1, (List.nodup_cons.mp h3).2⟩
      by_cases hap : a = pk
      · subst hap
        have htail : (t.filter (fun x => x.id == some a)).length = 0 := by
          rw [List.length_eq_zero, List.filter_eq_nil_iff]
          intro y hy hyid
          exact h2.1 (List.mem_filterMap.mpr
            ⟨y, hy, by simpa using (eq_of_beq hyid)⟩)
        have hxpk : (x.id == some a) = true := by simp [hx]
        simp only [List.filter_cons, hxpk, if_true, List.length_cons, htail]
        omega
      · have hxpk : (x.id == some pk) = false := by simp [hx, hap]
        simp only [List.filter_cons, hxpk, Bool.false_eq_true, if_false]
        exact ih h2.2

theorem cuentaActivos_eq_countP (s : List TimbradoConfig) :
    cuentaActivos s = s.countP (fun x => x.activo) := by
  rw [cuentaActivos, List.countP_eq_length_filter]

theorem cuentaActivos_update_le_filter (s : List TimbradoConfig)
    (c : TimbradoConfig) (pk : Nat) (hc : c.id = some pk)
    (hall : ∀ x ∈ s, x.activo = true → x.id = some pk) :
    cuentaActivos (saveUpdate s c) ≤
      (s.filter (fun x => x.id == some pk)).length := by
  rw [saveUpdate, cuentaActivos_eq_countP, List.countP_map,
    ← List.countP_eq_length_filter]
  apply List.countP_mono_left
  intro x hx hpx
  have hpx2 : (if x.id == c.id then c else x).activo = true := hpx
  by_cases hxid : (x.id == c.id) = true
  · rw [eq_of_beq hxid, hc]
    simp
  · rw [if_neg hxid] at hpx2
    rw [hall x hx hpx2]
    simp

theorem dos_miembros_le_length {α : Type} {l : List α} {a b : α}
    (ha : a ∈ l) (hb : b ∈ l) (hne : a ≠ b) : 2 ≤ l.length := by
  cases l with
  | nil => cases ha
  | cons x t =>
    cases t with
    | nil =>
      rw [List.mem_singleton] at ha hb
      exact absurd (ha.trans hb.symm) hne
    | cons y u =>
      simp only [List.length_cons]
      omega

theorem configurar_deactivated (s : List TimbradoConfig)
    (ca : TimbradoConfig) (hfind : get_activo s = some ca)
    (hle : cuentaActivos s ≤ 1) :
    cuentaActivos (s.map
      (fun x => if x.id == ca.id then { x with activo := false } else x)) =
      0 := by
  have hca_mem : ca ∈ s := List.mem_of_find?_eq_some hfind
  have hca_act : ca.activo = true := by
    have h2 := List.find?_some hfind
    simpa using h2
  simp only [cuentaActivos, List.length_eq_zero, List.filter_eq_nil_iff]
  intro x hx
  rcases List.mem_map.mp hx with ⟨y, hy, hxy⟩
  subst hxy
  by_cases hyid : (y.id == ca.id) = true
  · simp [hyid]
  · have hyid2 : (y.id == ca.id) = false := by simpa using hyid
    simp only [hyid2, Bool.false_eq_true, if_false]
    intro hya
    have hyne : y ≠ ca := by
      intro he
      rw [he] at hyid2
      simp at hyid2
    have hyf : y ∈ s.filter (fun x => x.activo) :=
      List.mem_filter.mpr ⟨hy, hya⟩
    have hcf : ca ∈ s.filter (fun x => x.activo) :=
      List.mem_filter.mpr ⟨hca_mem, hca_act⟩
    have := dos_miembros_le_length hyf hcf hyne
    simp only [cuentaActivos] at hle
    omega

theorem reachable_ok {s : List TimbradoConfig} (h : TimbradoReachable s) :
    cuentaActivos s ≤ 1 ∧ (idsOf s).Nodup ∧ ∀ x ∈ s, x.id.isSome := by
  induction h with
  | empty => simp [cuentaActivos, idsOf]
  | createValidated s c fid hr hid hclean hfresh ih =>
    refine ⟨?_, ?_, ?_⟩
    · rw [saveNew, cuentaActivos_append]
      have hact : ({ c with id := some fid } : TimbradoConfig).activo =
          c.activo := rfl
      by_cases hca : c.activo = true
      · have hz : cuentaActivos s = 0 := by
          apply cuentaActivos_eq_zero_of_isEmpty
          have he := clean_ok_isEmpty s c hclean hca
          rwa [hid, activosExcepto_none] at he
        rw [hz, hact, hca]
        simp
      · have hca2 : c.activo = false := by simpa using hca
        rw [hact, hca2]
        simp only [Bool.false_eq_true, if_false]
        have := ih.1
        omega
    · rw [saveNew, idsOf_append_some s { c with id := some fid } fid rfl]
      have hdisj : ∀ v ∈ idsOf s, v ∉ ([fid] : List Nat) := by
        intro v hv hvf
        rw [List.mem_singleton] at hvf
        exact hfresh (hvf ▸ hv)
      exact List.Nodup.append ih.2.1 (List.nodup_singleton fid) hdisj
    · intro x hx
      rw [saveNew] at hx
      rcases List.mem_append.mp hx with hx1 | hx1
      · exact ih.2.2 x hx1
      · rw [List.mem_singleton.mp hx1]
        rfl
  | updateValidated s c pk hr hid hclean ih =>
    refine ⟨?_, ?_, ?_⟩
    · by_cases hca : c.activo = true
      · have he := clean_ok_isEmpty s c hclean hca
        rw [hid] at he
        have hall : ∀ x ∈ s, x.activo = true → x.id = some pk := by
          intro x hx hxa
          rw [activosExcepto_some, List.isEmpty_iff,
            List.filter_eq_nil_iff] at he
          have h2 := he x (List.mem_filter.mpr ⟨hx, hxa⟩)
          simp only [bne_iff_ne, ne_eq, Decidable.not_not] at h2
          exact h2
        calc cuentaActivos (saveUpdate s c) ≤
            (s.filter (fun x => x.id == some pk)).length :=
              cuentaActivos_update_le_filter s c pk hid hall
          _ ≤ 1 := filter_id_length_le_one s pk ih.2.1
      · have hca2 : c.activo = false := by simpa using hca
        have hle := cuentaActivos_map_le s
          (fun x => if x.id == c.id then c else x)
          (by
            intro x hx
            have hx2 : (if x.id == c.id then c else x).activo = true := hx
            by_cases hxid : (x.id == c.id) = true
            · rw [if_pos hxid] at hx2
              rw [hx2] at hca2
              cases hca2
            · rwa [if_neg hxid] at hx2)
        exact le_trans hle ih.1
    · rw [saveUpdate, idsOf_map_pres _ (saveUpdate_id_pres c) s]
      exact ih.2.1
    · intro x hx
      rw [saveUpdate] at hx
      rcases List.mem_map.mp hx with ⟨y, hy, hxy⟩
      subst hxy
      show (if y.id == c.id then c else y).id.isSome = true
      by_cases hyid : (y.id == c.id) = true
      · rw [if_pos hyid, hid]
        rfl
      · rw [if_neg hyid]
        exact ih.2.2 y hy
  | replaceWorkflow s payload user fid hr hfresh ih =>
    have hdisj : ∀ v ∈ idsOf s, v ∉ ([fid] : List Nat) := by
      intro v hv hvf
      rw [List.mem_singleton] at hvf
      exact hfresh (hvf ▸ hv)
    refine ⟨?_, ?_, ?_⟩
    · simp only [timbrado_configurar]
      cases hfind : get_activo s with
      | none =>
        have hz : cuentaActivos s = 0 := by
          simp only [cuentaActivos, List.length_eq_zero,
            List.filter_eq_nil_iff]
          intro x hx hxa
          exact (List.find?_eq_none.mp hfind x hx) hxa
        rw [cuentaActivos_append, hz]
        simp
      | some ca =>
        rw [cuentaActivos_append, configurar_deactivated s ca hfind ih.1]
        simp
    · simp only [timbrado_configurar]
      cases hfind : get_activo s with
      | none =>
        rw [idsOf_append_some s _ fid rfl]
        exact List.Nodup.append ih.2.1 (List.nodup_singleton fid) hdisj
      | some ca =>
        rw [idsOf_append_some _ _ fid rfl,
          idsOf_map_pres _ (deactivate_id_pres ca) s]
        exact List.Nodup.append ih.2.1 (List.nodup_singleton fid) hdisj
    · intro x hx
      simp only [timbrado_configurar] at hx
      cases hfind : get_activo s with
      | none =>
        rw [hfind] at hx
        rcases List.mem_append.mp hx with hx1 | hx1
        · exact ih.2.2 x hx1
        · rw [List.mem_singleton.mp hx1]
          rfl
      | some ca =>
        rw [hfind] at hx
        rcases List.mem_append.mp hx with hx1 | hx1
        · rcases List.mem_map.mp hx1 with ⟨y, hy, hxy⟩
          subst hxy
          show (if y.id == ca.id then { y with activo := false }
            else y).id.isSome = true
          by_cases hyid : (y.id == ca.id) = true
          · rw [if_pos hyid]
            exact ih.2.2 y hy
          · rw [if_neg hyid]
            exact ih.2.2 y hy
        · rw [List.mem_singleton.mp hx1]
          rfl

/-- C1: at most one timbrado configuration is active at any time:
validation rejects activating a second configuration while another is
active; the replacement workflow on a valid submission leaves exactly
one active configuration — the newly created one, stamped with the
acting user as creator — after deactivating the prior active one; and
every table reachable through validated saves and the replacement
workflow satisfies the single-active invariant. -/
theorem C1_timbrado_config_unica :
    (∀ (s : List TimbradoConfig) (c : TimbradoConfig),
      c.activo = true → (activosExcepto s c.id).isEmpty = false →
      TimbradoConfig.clean s c = Except.error
        "Ya existe una configuración de timbrado activa. Desactive la anterior primero.") ∧
    (∀ (s : List TimbradoConfig) (payload : TimbradoConfig) (user fid : Nat),
      cuentaActivos s ≤ 1 →
      cuentaActivos (timbrado_configurar s payload user fid) = 1 ∧
      { payload with id := some fid, activo := true, creado_por := some user } ∈ timbrado_configurar s payload user fid ∧
      (∀ ca, get_activo s = some ca →
        { ca with activo := false } ∈ timbrado_configurar s payload user fid)) ∧
    (∀ s, TimbradoReachable s → cuentaActivos s ≤ 1) := by
  refine ⟨?_, ?_, fun s h => (reachable_ok h).1⟩
  · intro s c ha he
    simp [TimbradoConfig.clean, ha, he]
  · intro s payload user fid hle
    refine ⟨?_, ?_, ?_⟩
    · simp only [timbrado_configurar]
      cases hfind : get_activo s with
      | none =>
        have hz : cuentaActivos s = 0 := by
          simp only [cuentaActivos, List.length_eq_zero,
            List.filter_eq_nil_iff]
          intro x hx hxa
          exact (List.find?_eq_none.mp hfind x hx) hxa
        rw [cuentaActivos_append, hz]
        simp
      | some ca =>
        rw [cuentaActivos_append, configurar_deactivated s ca hfind hle]
        simp
    · simp only [timbrado_configurar]
      cases hfind : get_activo s <;>
        exact List.mem_append.mpr (Or.inr (List.mem_singleton.mpr rfl))
    · intro ca hfind
      simp only [timbrado_configurar, hfind]
      apply List.mem_append.mpr
      apply Or.inl
      apply List.mem_map.mpr
      exact ⟨ca, List.mem_of_find?_eq_some hfind, by simp⟩

/-- C1 witness: a reachable two-step scenario — create a configuration
through validation, then replace it through the workflow — keeping the
single-active invariant at each step. -/
theorem C1_timbrado_config_unica_witness :
    cuentaActivos (timbrado_configurar [{ configDemo with id := some 1 }]
      configDemo 7 2) = 1 ∧
    TimbradoReachable (saveNew [] configDemo 1) ∧
    cuentaActivos (saveNew [] configDemo 1) ≤ 1 := by
  have hreach : TimbradoReachable (saveNew [] configDemo 1) :=
    TimbradoReachable.createValidated [] configDemo 1
      TimbradoReachable.empty rfl rfl (by simp [idsOf])
  exact ⟨(C1_timbrado_config_unica.2.1 [{ configDemo with id := some 1 }]
      configDemo 7 2 (by decide)).1,
    hreach,
    C1_timbrado_config_unica.2.2 _ hreach⟩

end EasyInvoice
